import Mathlib

/-!
Verification of the nature-feature extraction and placement logic of
`enhanced_nature_features.py` (class `NatureFeaturesEnhancer`).

Floats are modelled as exact rationals (`ℚ`) — every arithmetic operation
performed by the code (add, sub, mul, div, abs, min, max, int truncation)
is modelled exactly; the placement generator is stated polymorphically over
a `LinearOrderedField` so the same definitions can be instantiated at `ℝ`
where the specification's trigonometric projection is compared against the
code.  `math.cos` (an external library function) is modelled as an explicit
function parameter `cosF`; where its analytic properties matter it is
instantiated with `Real.cos`.  Randomness (`random.uniform`) is modelled by
a stream `u : ℕ → K` of unit samples, `uniform lo hi (u i) = lo + (hi-lo)·u i`.
-/

/-- Tree species as used by the code (strings `'deciduous'` / `'coniferous'`). -/
inductive Species where
  | deciduous
  | coniferous
  deriving DecidableEq, Repr

/-- Wood class as used by the code (strings `'deciduous'`/`'coniferous'`/`'mixed'`). -/
inductive WoodType where
  | deciduous
  | coniferous
  | mixed
  deriving DecidableEq, Repr

/-- A `k`/`v` tag child of an OSM node or way. -/
structure OsmTag where
  k : String
  v : String
  deriving DecidableEq, Repr

/-- An OSM node: `id`, `lat`, `lon` attributes and tag children. -/
structure OsmNode where
  id : String
  lat : ℚ
  lon : ℚ
  tags : List OsmTag
  deriving DecidableEq, Repr

/-- An OSM way: ordered `nd ref` children and tag children. -/
structure OsmWay where
  refs : List String
  tags : List OsmTag
  deriving DecidableEq, Repr

/-- A parsed OSM document: the nodes and ways found by `root.findall`. -/
structure OsmDoc where
  nodes : List OsmNode
  ways : List OsmWay
  deriving DecidableEq, Repr

/-- A bench feature point (`{'lat': lat, 'lon': lon}`). -/
structure BenchPt (K : Type) where
  lat : K
  lon : K
  deriving DecidableEq, Repr

/-- An individual-tree feature point (`{'lat', 'lon', 'type', 'height'}`). -/
structure TreePt (K : Type) where
  lat : K
  lon : K
  species : Species
  height : K
  deriving DecidableEq, Repr

/-- A wood/forest area (`{'nodes', 'type', 'area'}`). -/
structure Wood (K : Type) where
  nodes : List (K × K)
  type : WoodType
  area : K
  deriving DecidableEq, Repr

/-- The three feature lists returned by `extract_features`. -/
structure Features (K : Type) where
  benches : List (BenchPt K)
  trees : List (TreePt K)
  woods : List (Wood K)
  deriving DecidableEq, Repr

/-- One generated placement: model URI, local position, uniform scale.
A bench `<include>` carries no `<scale>` element, i.e. scale 1. -/
structure Placement (K : Type) where
  modelUri : String
  x : K
  y : K
  scale : K
  deriving DecidableEq, Repr

/-- `BENCH_MODEL` catalog constant. -/
def BENCH_MODEL : String := "model://FoodCourtBenchLong"

/-- `TREE_MODEL_DECIDUOUS` catalog constant. -/
def TREE_MODEL_DECIDUOUS : String := "model://Tree"

/-- `TREE_MODEL_CONIFEROUS` catalog constant. -/
def TREE_MODEL_CONIFEROUS : String := "model://PineTree"

/-- Numeric value of a decimal digit character. -/
def digitVal (c : Char) : ℕ := c.toNat - 48

/-- Value of a digit string read as a natural number (digits assumed). -/
def digitsVal (cs : List Char) : ℕ :=
  cs.foldl (fun a c => 10 * a + digitVal c) 0

/-- Models Python `float()` on plain decimal literals: optional sign,
integer part, optional `.` and fractional part (at least one digit overall,
as in Python where `"1."` and `".5"` parse but `"."` does not).  Scientific
notation, `inf`/`nan`, underscores and surrounding whitespace are outside
the model; `None` models a raised `ValueError`. -/
def parseFloat (s : String) : Option ℚ :=
  let cs := s.toList
  let signed : ℚ × List Char :=
    match cs with
    | '-' :: r => (-1, r)
    | '+' :: r => (1, r)
    | r => (1, r)
  let ip := signed.2.takeWhile (fun c => c ≠ '.')
  let rp := signed.2.dropWhile (fun c => c ≠ '.')
  match rp with
  | [] =>
    if ip.isEmpty || !ip.all Char.isDigit then none
    else some (signed.1 * digitsVal ip)
  | _ :: fp =>
    if fp.any (fun c => c = '.') then none
    else if (ip.isEmpty && fp.isEmpty) || !ip.all Char.isDigit || !fp.all Char.isDigit then none
    else some (signed.1 * ((digitsVal ip : ℚ) + (digitsVal fp : ℚ) / 10 ^ fp.length))

/-- Whether a node carries a tag `amenity=bench` (the `has_bench` flag). -/
def nodeHasBench (n : OsmNode) : Bool :=
  n.tags.any fun t => t.k == "amenity" && t.v == "bench"

/-- Whether a node carries a tag `natural=tree` (the `has_tree` flag). -/
def nodeHasTree (n : OsmNode) : Bool :=
  n.tags.any fun t => t.k == "natural" && t.v == "tree"

/-- Tree species of a tree node: `coniferous` iff some tag is
`leaf_type=needleleaved`, else the default `deciduous`. -/
def nodeTreeSpecies (n : OsmNode) : Species :=
  if n.tags.any (fun t => t.k == "leaf_type" && t.v == "needleleaved") then
    Species.coniferous
  else
    Species.deciduous

/-- Tree height: the second tag scan folds over the tags, each `height` tag
overwriting the current value with `float(v)`, falling back to `5.0` on a
parse failure; default `5.0`. -/
def nodeTreeHeight (n : OsmNode) : ℚ :=
  n.tags.foldl (fun h t => if t.k == "height" then (parseFloat t.v).getD 5 else h) 5

/-- Whether a way is a wood: some tag is `natural=wood` or `landuse=forest`. -/
def wayIsWood (w : OsmWay) : Bool :=
  w.tags.any fun t => (t.k == "natural" && t.v == "wood") || (t.k == "landuse" && t.v == "forest")

/-- Wood class of a way: fold over the tags, each `wood`/`leaf_type` tag with
a recognized value overwriting the current class; default `mixed`. -/
def wayWoodType (w : OsmWay) : WoodType :=
  w.tags.foldl
    (fun acc t =>
      if t.k == "wood" || t.k == "leaf_type" then
        if t.v == "deciduous" || t.v == "broadleaved" then WoodType.deciduous
        else if t.v == "coniferous" || t.v == "needleleaved" then WoodType.coniferous
        else if t.v == "mixed" then WoodType.mixed
        else acc
      else acc)
    WoodType.mixed

/-- Resolve the node references of a way to coordinates: for each `nd ref`,
`root.find(".//node[@id=...]")` returns the first node with that id, or is
skipped when absent. -/
def resolveNodes (doc : OsmDoc) (w : OsmWay) : List (ℚ × ℚ) :=
  w.refs.filterMap fun r =>
    (doc.nodes.find? fun n => n.id == r).map fun n => (n.lat, n.lon)

/-- The cross term `x_i·y_j − x_j·y_i` of the shoelace loop body. -/
def cross {K : Type} [LinearOrderedField K] (p q : K × K) : K :=
  p.1 * q.2 - q.1 * p.2

/-- `coords_meters[i]`: the `i`-th vertex of a coordinate list. -/
def vtx {K : Type} [LinearOrderedField K] (l : List (K × K)) (i : ℕ) : K × K :=
  l.getD i (0, 0)

/-- The signed shoelace sum of `_calculate_polygon_area`:
`for i in range(n): j = (i+1) % n; area += x_i·y_j − x_j·y_i`. -/
def shoelace {K : Type} [LinearOrderedField K] (l : List (K × K)) : K :=
  ∑ i ∈ Finset.range l.length, cross (vtx l i) (vtx l ((i + 1) % l.length))

/-- The flattening used by `_calculate_polygon_area`:
`x = lon * earth_radius * 0.0174533 * scale`, `y = lat * earth_radius * 0.0174533 * scale`.
Note: no reference-point subtraction and no `cos(lat)` factor. -/
def flattenCoord {K : Type} [LinearOrderedField K] (scale : K) (p : K × K) : K × K :=
  (p.2 * 6371000 * (174533 / 10000000) * scale, p.1 * 6371000 * (174533 / 10000000) * scale)

/-- `_calculate_polygon_area`: 0 for fewer than 3 vertices, else
`|shoelace| / 2` of the flattened vertices. -/
def polygonArea {K : Type} [LinearOrderedField K] (scale : K) (coords : List (K × K)) : K :=
  if coords.length < 3 then 0
  else |shoelace (coords.map (flattenCoord scale))| / 2

/-- `extract_features` (success path): benches and trees from the node scan,
woods from the way scan; a wood is retained only with more than 2 resolved
vertices, and carries its `_calculate_polygon_area` value. -/
def extractFeatures (scale : ℚ) (doc : OsmDoc) : Features ℚ :=
  { benches := (doc.nodes.filter nodeHasBench).map fun n => ⟨n.lat, n.lon⟩
    trees := (doc.nodes.filter nodeHasTree).map fun n =>
      ⟨n.lat, n.lon, nodeTreeSpecies n, nodeTreeHeight n⟩
    woods := (doc.ways.filter wayIsWood).filterMap fun w =>
      let nodes := resolveNodes doc w
      if 2 < nodes.length then some ⟨nodes, wayWoodType w, polygonArea scale nodes⟩
      else none }

/-- Python `int()` truncation toward zero. -/
def pyInt {K : Type} [LinearOrderedField K] [FloorRing K] (x : K) : ℤ :=
  if 0 ≤ x then ⌊x⌋ else ⌈x⌉

/-- `random.uniform lo hi` modelled on a unit sample `u ∈ [0,1]`. -/
def uniform {K : Type} [LinearOrderedField K] (lo hi u : K) : K :=
  lo + (hi - lo) * u

/-- Bench placements: one record per bench, bench model, pose from the
projector, no `<scale>` element (scale 1). -/
def benchPlacements {K : Type} [LinearOrderedField K]
    (proj : K → K → K × K) (bs : List (BenchPt K)) : List (Placement K) :=
  bs.map fun b =>
    let xy := proj b.lat b.lon
    { modelUri := BENCH_MODEL, x := xy.1, y := xy.2, scale := 1 }

/-- Individual-tree placements: deciduous model iff the type is
`'deciduous'`, scale `height / 5.0`. -/
def treePlacements {K : Type} [LinearOrderedField K]
    (proj : K → K → K × K) (ts : List (TreePt K)) : List (Placement K) :=
  ts.map fun t =>
    let xy := proj t.lat t.lon
    { modelUri :=
        if t.species = Species.deciduous then TREE_MODEL_DECIDUOUS else TREE_MODEL_CONIFEROUS
      x := xy.1, y := xy.2, scale := t.height / 5 }

/-- The wood centroid: unweighted mean of the vertex latitudes/longitudes. -/
def woodCentroid {K : Type} [LinearOrderedField K] (w : Wood K) : K × K :=
  ((w.nodes.map Prod.fst).sum / w.nodes.length,
   (w.nodes.map Prod.snd).sum / w.nodes.length)

/-- Placements for one wood.  Large branch (`area > 5000`):
`max_trees = min(20, int(area/500))` grid placements around the projected
centroid, `grid_size = int(max_trees ** 0.5)` (exactly `Nat.sqrt` for these
magnitudes), offsets `(row - grid_size/2)*10` (Python float division),
jitter `uniform(-5,5)` per axis, species alternating by index for a mixed
wood, scale `uniform(0.8, 1.3)`.  Small branch: one record at the projected
centroid, deciduous model for a deciduous or mixed wood,
scale `min(2.0, max(1.0, area/1000))`.  The `j`-th placement consumes unit
samples `u (3j)`, `u (3j+1)`, `u (3j+2)` in call order. -/
def woodPlacements {K : Type} [LinearOrderedField K] [FloorRing K]
    (proj : K → K → K × K) (u : ℕ → K) (w : Wood K) : List (Placement K) :=
  let c := woodCentroid w
  let xy := proj c.1 c.2
  if 5000 < w.area then
    let maxTrees := (min 20 (pyInt (w.area / 500))).toNat
    let gridSize := Nat.sqrt maxTrees
    (List.range maxTrees).map fun j =>
      let row := j / gridSize
      let col := j % gridSize
      let offX := ((row : K) - (gridSize : K) / 2) * 10
      let offY := ((col : K) - (gridSize : K) / 2) * 10
      let randX := uniform (-5) 5 (u (3 * j))
      let randY := uniform (-5) 5 (u (3 * j + 1))
      let sp :=
        if w.type = WoodType.mixed then
          if j % 2 = 0 then Species.deciduous else Species.coniferous
        else
          if w.type = WoodType.deciduous then Species.deciduous else Species.coniferous
      { modelUri :=
          if sp = Species.deciduous then TREE_MODEL_DECIDUOUS else TREE_MODEL_CONIFEROUS
        x := xy.1 + offX + randX
        y := xy.2 + offY + randY
        scale := uniform (8 / 10) (13 / 10) (u (3 * j + 2)) }
  else
    [{ modelUri :=
         if w.type = WoodType.deciduous ∨ w.type = WoodType.mixed then
           TREE_MODEL_DECIDUOUS
         else TREE_MODEL_CONIFEROUS
       x := xy.1, y := xy.2
       scale := min 2 (max 1 (w.area / 1000)) }]

/-- `_generate_gazebo_models`: benches, then individual trees, then the
per-wood placements in wood order; wood `i` draws from the sample stream
`U i`. -/
def generateGazeboModels {K : Type} [LinearOrderedField K] [FloorRing K]
    (proj : K → K → K × K) (U : ℕ → ℕ → K) (feats : Features K) : List (Placement K) :=
  benchPlacements proj feats.benches ++ treePlacements proj feats.trees ++
    (feats.woods.enum.map fun iw => woodPlacements proj (U iw.1) iw.2).flatten

/-- `_latlon_to_xy`.  `firstNode` is the lat/lon of the first node of the
OSM document (`None` when the document has no node, in which case the
queried point itself is the reference).  `mathBound` records whether the
name `math` is bound in the module globals: it is bound only when the file
runs as a script (the import sits inside the `__main__` block), so in
library use evaluating `math.cos` raises `NameError`, the bare `except`
catches it (as it catches any internal failure) and the function returns
`(0, 0)`.  `cosF` models `math.cos`; note the degree-to-radian factor is
the literal `0.0174533`, not `π/180`. -/
def latlon_to_xy {K : Type} [LinearOrderedField K] (cosF : K → K) (mathBound : Bool)
    (scale : K) (firstNode : Option (K × K)) (lat lon : K) : K × K :=
  if mathBound then
    let ref := match firstNode with
      | some r => r
      | none => (lat, lon)
    (6371000 * (lon - ref.2) * (174533 / 10000000) * scale * cosF (lat * (174533 / 10000000)),
     6371000 * (lat - ref.1) * (174533 / 10000000) * scale)
  else (0, 0)

/-- Modelled from the spec: the §4.2 Geographic Projector contract
`x = EARTH_RADIUS · (lon − ref_lon) · (π/180) · scale · cos(lat_in_radians)`,
`y = EARTH_RADIUS · (lat − ref_lat) · (π/180) · scale`.  Kept separate from
the code-derived definitions so the spec's area claim (C1) can be compared
against what `_calculate_polygon_area` actually computes. -/
noncomputable def specProject (scale : ℝ) (ref : ℝ × ℝ) (p : ℝ × ℝ) : ℝ × ℝ :=
  (6371000 * (p.2 - ref.2) * (Real.pi / 180) * scale * Real.cos (p.1 * (Real.pi / 180)),
   6371000 * (p.1 - ref.1) * (Real.pi / 180) * scale)

/-- Modelled from the spec: the wood area the spec prescribes — flatten the
vertices with the §4.2 projector, then take `|shoelace| / 2`. -/
noncomputable def specWoodArea (scale : ℝ) (ref : ℝ × ℝ) (verts : List (ℝ × ℝ)) : ℝ :=
  |shoelace (verts.map (specProject scale ref))| / 2

/-- Coordinates of the ReferencePoint: the first node of the document. -/
def refPointOf (doc : OsmDoc) : Option (ℚ × ℚ) :=
  doc.nodes.head?.map fun n => (n.lat, n.lon)

/-- Outcome classification of `enhance_world_file`. -/
inductive EnhanceStatus where
  | noFeatures
  | malformedScene
  | enhanced
  deriving DecidableEq, Repr

/-- Observable outcome of `enhance_world_file`: the returned boolean, the
reported outcome, the scene file's content afterwards, and the `.bak`
content if one was written. -/
structure EnhanceOutcome where
  returnValue : Bool
  status : EnhanceStatus
  finalWorld : List Char
  backup : Option (List Char)
  deriving DecidableEq, Repr

/-- Python `str.rfind`: the largest start index at which the pattern occurs,
`none` for Python's `-1`. -/
def rfindPos (s pat : List Char) : Option ℕ :=
  ((List.range (s.length + 1)).reverse).find? fun i => pat.isPrefixOf (s.drop i)

/-- The closing root tag searched for by `enhance_world_file`. -/
def closingWorldTag : List Char := "</world>".toList

/-- The comment marker inserted above the generated content. -/
def enhancedMarker : List Char := "\n<!-- Enhanced nature features -->\n".toList

/-- `enhance_world_file` on an existing world file, after feature
extraction: if all three feature lists are empty, warn and return `False`
without touching the file; else locate the last `</world>` (fail with the
malformed-scene error, no write and no backup, when absent); else write the
original content to the `.bak` backup and splice the generated fragment
(under the marker comment) in before the closing tag.  `newContent` is the
serialized `_generate_gazebo_models` output. -/
def enhance_world_file (worldContent : List Char) (feats : Features ℚ)
    (newContent : List Char) : EnhanceOutcome :=
  if feats.benches.length + feats.trees.length + feats.woods.length = 0 then
    { returnValue := false, status := EnhanceStatus.noFeatures
      finalWorld := worldContent, backup := none }
  else
    match rfindPos worldContent closingWorldTag with
    | none =>
      { returnValue := false, status := EnhanceStatus.malformedScene
        finalWorld := worldContent, backup := none }
    | some pos =>
      { returnValue := true, status := EnhanceStatus.enhanced
        finalWorld := worldContent.take pos ++ enhancedMarker ++ newContent ++ worldContent.drop pos
        backup := some worldContent }

/-! ## Concrete inputs used by witnesses and counterexamples -/

/-- A projector constantly returning the origin (what `_latlon_to_xy`
computes in library use, see C9). -/
def projOrigin : ℚ → ℚ → ℚ × ℚ := fun _ _ => (0, 0)

/-- The all-zero unit-sample matrix (each `random.uniform lo hi` call
returns `lo`). -/
def zeroStream : ℕ → ℕ → ℚ := fun _ _ => 0

/-- The all-zero unit-sample stream for a single wood. -/
def zeroUnit : ℕ → ℚ := fun _ => 0

/-- An OSM document with one wood way over three collinear nodes, the
first of which is the ReferencePoint (0, 0). -/
def docCollinear : OsmDoc :=
  { nodes := [⟨"1", 0, 0, []⟩, ⟨"2", 1, 1, []⟩, ⟨"3", 2, 2, []⟩]
    ways := [⟨["1", "2", "3"], [⟨"natural", "wood"⟩]⟩] }

/-- An OSM document with one tree node whose `height` tag is `"0"`,
a string `float()` parses successfully. -/
def docTreeHeightZero : OsmDoc :=
  { nodes := [⟨"1", 3, 4, [⟨"natural", "tree"⟩, ⟨"height", "0"⟩]⟩], ways := [] }

/-- An OSM document with a single node tagged both `amenity=bench`
and `natural=tree`. -/
def docDualNode : OsmDoc :=
  { nodes := [⟨"1", 7, 8, [⟨"amenity", "bench"⟩, ⟨"natural", "tree"⟩]⟩], ways := [] }

/-- A small wood (`area ≤ 5000`), coniferous. -/
def wSmall : Wood ℚ := ⟨[(0, 0), (0, 1), (1, 1)], WoodType.coniferous, 1500⟩

/-- A large wood (`area > 5000`), mixed. -/
def wLarge : Wood ℚ := ⟨[(0, 0), (0, 1), (1, 1)], WoodType.mixed, 10000⟩

/-- A feature set holding only the large wood. -/
def featsLargeWood : Features ℚ := ⟨[], [], [wLarge]⟩

/-! ## Helper lemmas -/

theorem cross_antisymm {K : Type} [LinearOrderedField K] (p q : K × K) :
    cross p q = -cross q p := by
  simp only [cross]; ring

theorem vtx_reverse {K : Type} [LinearOrderedField K] (l : List (K × K)) (i : ℕ)
    (h : i < l.length) : vtx l.reverse i = vtx l (l.length - 1 - i) := by
  simp only [vtx, List.getD_eq_getElem?_getD, List.getElem?_reverse h]

theorem shoelace_reverse {K : Type} [LinearOrderedField K] (l : List (K × K)) :
    shoelace l.reverse = -shoelace l := by
  rcases hn : l.length with _ | m
  · have hl : l = [] := List.length_eq_zero.mp hn
    subst hl
    simp [shoelace]
  · have hpos : 0 < l.length := by omega
    have step1 : shoelace l.reverse
        = ∑ i ∈ Finset.range l.length,
            cross (vtx l (l.length - 1 - i))
              (vtx l (l.length - 1 - ((l.length - (l.length - 1 - i)) % l.length))) := by
      unfold shoelace
      rw [List.length_reverse]
      refine Finset.sum_congr rfl fun i hi => ?_
      have hi' : i < l.length := Finset.mem_range.mp hi
      have him : (i + 1) % l.length < l.length := Nat.mod_lt _ hpos
      have e : l.length - (l.length - 1 - i) = i + 1 := by omega
      rw [vtx_reverse l i hi', vtx_reverse l _ him, e]
    have step2 : shoelace l.reverse
        = ∑ k ∈ Finset.range l.length,
            cross (vtx l k) (vtx l (l.length - 1 - ((l.length - k) % l.length))) := by
      rw [step1]
      exact Finset.sum_range_reflect
        (fun k => cross (vtx l k) (vtx l (l.length - 1 - ((l.length - k) % l.length)))) l.length
    rw [step2, hn]
    rw [Finset.sum_range_succ' (fun k =>
      cross (vtx l k) (vtx l (m + 1 - 1 - ((m + 1 - k) % (m + 1))))) m]
    unfold shoelace
    rw [hn]
    rw [Finset.sum_range_succ (fun i => cross (vtx l i) (vtx l ((i + 1) % (m + 1)))) m]
    have eA : ∀ k ∈ Finset.range m,
        cross (vtx l (k + 1)) (vtx l (m + 1 - 1 - ((m + 1 - (k + 1)) % (m + 1))))
          = -cross (vtx l k) (vtx l ((k + 1) % (m + 1))) := by
      intro k hk
      have hk' : k < m := Finset.mem_range.mp hk
      have h1 : m + 1 - (k + 1) = m - k := by omega
      have e1 : (m + 1 - (k + 1)) % (m + 1) = m - k := by
        rw [h1, Nat.mod_eq_of_lt (by omega)]
      have e2 : m + 1 - 1 - (m - k) = k := by omega
      have e3 : (k + 1) % (m + 1) = k + 1 := Nat.mod_eq_of_lt (by omega)
      rw [e1, e2, e3]
      exact cross_antisymm _ _
    rw [Finset.sum_congr rfl eA]
    have eB : cross (vtx l 0) (vtx l (m + 1 - 1 - ((m + 1 - 0) % (m + 1))))
        = -cross (vtx l m) (vtx l ((m + 1) % (m + 1))) := by
      have e1 : (m + 1 - 0) % (m + 1) = 0 := by
        rw [Nat.sub_zero, Nat.mod_self]
      have e2 : (m + 1) % (m + 1) = 0 := Nat.mod_self (m + 1)
      rw [e1, e2]
      have e3 : m + 1 - 1 - 0 = m := by omega
      rw [e3]
      exact cross_antisymm _ _
    rw [eB, Finset.sum_neg_distrib]
    ring

theorem rfindPos_eq_none_iff (s pat : List Char) :
    rfindPos s pat = none ↔ ¬ pat <:+: s := by
  unfold rfindPos
  rw [List.find?_eq_none]
  constructor
  · intro h hinf
    obtain ⟨pre, suf, hps⟩ := hinf
    have hple : pre.length ≤ s.length := by
      rw [← hps]
      simp [List.length_append]
    have hdrop : s.drop pre.length = pat ++ suf := by
      rw [← hps, List.append_assoc, List.drop_left]
    have hmem : pre.length ∈ (List.range (s.length + 1)).reverse :=
      List.mem_reverse.mpr (List.mem_range.mpr (by omega))
    apply h pre.length hmem
    rw [hdrop]
    exact List.isPrefixOf_iff_prefix.mpr (List.prefix_append pat suf)
  · intro h i _ hpref
    apply h
    obtain ⟨t, ht⟩ := List.isPrefixOf_iff_prefix.mp hpref
    exact ⟨s.take i, t, by rw [List.append_assoc, ht, List.take_append_drop]⟩

/-! ## Claims -/

/-- C5: for every vertex list with at least 3 vertices,
`_calculate_polygon_area` returns a value ≥ 0, and returns the same value
on the reversed vertex list. -/
theorem claim_C5_area_nonneg_reverse_invariant (scale : ℚ) (coords : List (ℚ × ℚ))
    (h : 3 ≤ coords.length) :
    0 ≤ polygonArea scale coords ∧
      polygonArea scale coords.reverse = polygonArea scale coords := by
  have h3 : ¬ (coords.length < 3) := by omega
  constructor
  · unfold polygonArea
    rw [if_neg h3]
    exact div_nonneg (abs_nonneg _) (by norm_num)
  · unfold polygonArea
    rw [List.length_reverse, if_neg h3, if_neg h3, List.map_reverse, shoelace_reverse, abs_neg]

/-- Witness for C5 at a concrete right triangle. -/
theorem claim_C5_witness :
    0 ≤ polygonArea (1 : ℚ) [(0, 0), (0, 1), (1, 0)] ∧
      polygonArea (1 : ℚ) ([(0, 0), (0, 1), (1, 0)] : List (ℚ × ℚ)).reverse =
        polygonArea (1 : ℚ) [(0, 0), (0, 1), (1, 0)] :=
  claim_C5_area_nonneg_reverse_invariant 1 [(0, 0), (0, 1), (1, 0)] (by decide)

/-- C6: projecting the ReferencePoint itself yields (0, 0), and with no
node in the document the queried point is its own reference, so it also
projects to (0, 0) — in script mode (`math` bound) and library mode alike. -/
theorem claim_C6_reference_projects_to_origin {K : Type} [LinearOrderedField K]
    (cosF : K → K) (mb : Bool) (scale lat lon : K) :
    latlon_to_xy cosF mb scale (some (lat, lon)) lat lon = (0, 0) ∧
      latlon_to_xy cosF mb scale none lat lon = (0, 0) := by
  cases mb <;> simp [latlon_to_xy]

/-- C7: when the world file contains no occurrence of `</world>`,
`enhance_world_file` reports the malformed-scene failure, writes nothing,
and creates no backup (given that extraction found some feature, since an
empty feature set short-circuits earlier with its own warning). -/
theorem claim_C7_malformed_scene_no_write (content : List Char) (feats : Features ℚ)
    (newContent : List Char)
    (hfeats : feats.benches.length + feats.trees.length + feats.woods.length ≠ 0)
    (hmal : ¬ closingWorldTag <:+: content) :
    enhance_world_file content feats newContent =
      { returnValue := false, status := EnhanceStatus.malformedScene
        finalWorld := content, backup := none } := by
  have hfind : rfindPos content closingWorldTag = none := (rfindPos_eq_none_iff _ _).mpr hmal
  unfold enhance_world_file
  rw [if_neg hfeats, hfind]

/-- Witness for C7 on a world file with no closing tag. -/
theorem claim_C7_witness :
    enhance_world_file "hi".toList ⟨[⟨0, 0⟩], [], []⟩ "x".toList =
      { returnValue := false, status := EnhanceStatus.malformedScene
        finalWorld := "hi".toList, backup := none } :=
  claim_C7_malformed_scene_no_write _ _ _ (by decide) (by decide)

/-- C8: with all three feature lists empty, `enhance_world_file` leaves the
file untouched, creates no backup, and reports the no-features outcome —
a status distinct from the malformed-scene error (the code signals it with
a warning, not an error message). -/
theorem claim_C8_no_features_noop (content newContent : List Char) :
    enhance_world_file content ⟨[], [], []⟩ newContent =
      { returnValue := false, status := EnhanceStatus.noFeatures
        finalWorld := content, backup := none } ∧
      EnhanceStatus.noFeatures ≠ EnhanceStatus.malformedScene := by
  constructor
  · simp [enhance_world_file]
  · simp

/-- C3: a large wood (`area_m2 > 5000`) generates exactly
`min(20, floor(area/500))` proxy tree placements (hence at most 20), and
the model at index `j` alternates deciduous/coniferous for a mixed wood
and follows the wood's class otherwise. -/
theorem claim_C3_large_wood_count_and_species (proj : ℚ → ℚ → ℚ × ℚ) (u : ℕ → ℚ)
    (w : Wood ℚ) (harea : 5000 < w.area) :
    (woodPlacements proj u w).length = min 20 (⌊w.area / 500⌋.toNat) ∧
    (woodPlacements proj u w).length ≤ 20 ∧
    ∀ j (hj : j < (woodPlacements proj u w).length),
      (w.type = WoodType.mixed →
        (woodPlacements proj u w)[j].modelUri =
          if j % 2 = 0 then TREE_MODEL_DECIDUOUS else TREE_MODEL_CONIFEROUS) ∧
      (w.type = WoodType.deciduous →
        (woodPlacements proj u w)[j].modelUri = TREE_MODEL_DECIDUOUS) ∧
      (w.type = WoodType.coniferous →
        (woodPlacements proj u w)[j].modelUri = TREE_MODEL_CONIFEROUS) := by
  have hpos : (0 : ℚ) < w.area := lt_trans (by norm_num) harea
  have hnn : (0 : ℚ) ≤ w.area / 500 := le_of_lt (div_pos hpos (by norm_num))
  have hfloor : (0 : ℤ) ≤ ⌊w.area / 500⌋ := Int.floor_nonneg.mpr hnn
  have hpy : pyInt (w.area / 500) = ⌊w.area / 500⌋ := by
    unfold pyInt
    rw [if_pos hnn]
  have hlen : (woodPlacements proj u w).length = (min 20 (pyInt (w.area / 500))).toNat := by
    unfold woodPlacements
    rw [if_pos harea]
    simp
  have hlen' : (woodPlacements proj u w).length = min 20 (⌊w.area / 500⌋.toNat) := by
    rw [hlen, hpy]
    omega
  refine ⟨hlen', by omega, ?_⟩
  intro j hj
  have hget : (woodPlacements proj u w)[j] =
      (fun j : ℕ =>
        let c := woodCentroid w
        let xy := proj c.1 c.2
        let gridSize := Nat.sqrt (min 20 (pyInt (w.area / 500))).toNat
        let row := j / gridSize
        let col := j % gridSize
        let offX := ((row : ℚ) - (gridSize : ℚ) / 2) * 10
        let offY := ((col : ℚ) - (gridSize : ℚ) / 2) * 10
        let randX := uniform (-5) 5 (u (3 * j))
        let randY := uniform (-5) 5 (u (3 * j + 1))
        let sp :=
          if w.type = WoodType.mixed then
            if j % 2 = 0 then Species.deciduous else Species.coniferous
          else
            if w.type = WoodType.deciduous then Species.deciduous else Species.coniferous
        { modelUri :=
            if sp = Species.deciduous then TREE_MODEL_DECIDUOUS else TREE_MODEL_CONIFEROUS
          x := xy.1 + offX + randX
          y := xy.2 + offY + randY
          scale := uniform (8 / 10) (13 / 10) (u (3 * j + 2)) }) j := by
    have hj' : j < (min 20 (pyInt (w.area / 500))).toNat := by
      rw [← hlen]
      exact hj
    conv in woodPlacements proj u w => rw [show woodPlacements proj u w = _ from rfl]
    unfold woodPlacements
    simp only [if_pos harea]
    rw [List.getElem_map, List.getElem_range]
  refine ⟨?_, ?_, ?_⟩
  · intro hmix
    rw [hget]
    simp only [hmix]
    by_cases hp : j % 2 = 0 <;> simp [hp]
  · intro hdec
    rw [hget]
    simp [hdec]
  · intro hcon
    rw [hget]
    simp [hcon]

/-- Witness for C3: the 10000 m² mixed wood yields exactly 20 placements. -/
theorem claim_C3_witness :
    (woodPlacements projOrigin zeroUnit wLarge).length = 20 := by
  have h := claim_C3_large_wood_count_and_species projOrigin zeroUnit wLarge (by norm_num [wLarge])
  rw [h.1]
  norm_num [wLarge]

/-- C4: a small wood (`area_m2 ≤ 5000`) generates exactly one placement at
the projected centroid (unweighted vertex mean), deciduous model for a
deciduous or mixed wood and coniferous otherwise, with scale
`clamp(area/1000, 1, 2)`, which always lies in `[1, 2]`. -/
theorem claim_C4_small_wood_single_placement (proj : ℚ → ℚ → ℚ × ℚ) (u : ℕ → ℚ)
    (w : Wood ℚ) (harea : w.area ≤ 5000) (_hn : 3 ≤ w.nodes.length) :
    woodPlacements proj u w =
      [{ modelUri :=
           if w.type = WoodType.deciduous ∨ w.type = WoodType.mixed then
             TREE_MODEL_DECIDUOUS
           else TREE_MODEL_CONIFEROUS
         x := (proj (woodCentroid w).1 (woodCentroid w).2).1
         y := (proj (woodCentroid w).1 (woodCentroid w).2).2
         scale := min 2 (max 1 (w.area / 1000)) }] ∧
    (1 : ℚ) ≤ min 2 (max 1 (w.area / 1000)) ∧ min (2 : ℚ) (max 1 (w.area / 1000)) ≤ 2 := by
  have hlt : ¬ (5000 < w.area) := not_lt.mpr harea
  refine ⟨?_, ?_, ?_⟩
  · unfold woodPlacements
    rw [if_neg hlt]
  · exact le_min (by norm_num) (le_max_left 1 _)
  · exact min_le_left _ _

/-- Witness for C4: the 1500 m² coniferous wood yields one placement of
scale 1.5. -/
theorem claim_C4_witness :
    (woodPlacements projOrigin zeroUnit wSmall).length = 1 ∧
    (1 : ℚ) ≤ min 2 (max 1 (wSmall.area / 1000)) ∧
      min (2 : ℚ) (max 1 (wSmall.area / 1000)) ≤ 2 := by
  have h := claim_C4_small_wood_single_placement projOrigin zeroUnit wSmall
    (by norm_num [wSmall]) (by decide)
  exact ⟨by rw [h.1]; rfl, h.2.1, h.2.2⟩

/-- An if-then-else takes one of its two branch values. -/
theorem ite_eq_left_or_right {α : Type} (c : Prop) [Decidable c] (a b : α) :
    (if c then a else b) = a ∨ (if c then a else b) = b := by
  by_cases h : c
  · exact Or.inl (if_pos h)
  · exact Or.inr (if_neg h)

/-- Every wood placement uses one of the two tree models, and has positive
scale as long as the unit samples are nonnegative. -/
theorem mem_woodPlacements_uri_scale (proj : ℚ → ℚ → ℚ × ℚ) (u : ℕ → ℚ) (w : Wood ℚ)
    (hu : ∀ n, 0 ≤ u n) :
    ∀ p ∈ woodPlacements proj u w,
      (p.modelUri = TREE_MODEL_DECIDUOUS ∨ p.modelUri = TREE_MODEL_CONIFEROUS) ∧
        0 < p.scale := by
  intro p hp
  unfold woodPlacements at hp
  by_cases h : 5000 < w.area
  · rw [if_pos h] at hp
    obtain ⟨j, hj, rfl⟩ := List.mem_map.mp hp
    constructor
    · dsimp only
      exact ite_eq_left_or_right _ _ _
    · dsimp only
      unfold uniform
      have h1 : (0 : ℚ) ≤ (13 / 10 - 8 / 10) * u (3 * j + 2) :=
        mul_nonneg (by norm_num) (hu (3 * j + 2))
      linarith
  · rw [if_neg h] at hp
    simp only [List.mem_singleton] at hp
    subst hp
    constructor
    · dsimp only
      exact ite_eq_left_or_right _ _ _
    · dsimp only
      exact lt_min (by norm_num) (lt_of_lt_of_le (by norm_num) (le_max_left 1 _))

/-- C2 (amended): every placement's model URI is one of the three catalog
entries, and every scale is positive provided the unit samples are
nonnegative and every extracted tree height is positive (a parsed `height`
tag of `"0"` or a negative value makes the tree scale nonpositive, see the
counterexample). -/
theorem claim_C2_amended (proj : ℚ → ℚ → ℚ × ℚ) (U : ℕ → ℕ → ℚ) (feats : Features ℚ)
    (hU : ∀ i j, 0 ≤ U i j) (hh : ∀ t ∈ feats.trees, 0 < t.height) :
    ∀ p ∈ generateGazeboModels proj U feats,
      (p.modelUri = BENCH_MODEL ∨ p.modelUri = TREE_MODEL_DECIDUOUS ∨
        p.modelUri = TREE_MODEL_CONIFEROUS) ∧ 0 < p.scale := by
  intro p hp
  unfold generateGazeboModels at hp
  rcases List.mem_append.mp hp with hab | hw
  · rcases List.mem_append.mp hab with ha | hb
    · obtain ⟨b, _, rfl⟩ := List.mem_map.mp ha
      exact ⟨Or.inl rfl, by norm_num⟩
    · obtain ⟨t, ht, rfl⟩ := List.mem_map.mp hb
      constructor
      · dsimp only
        exact Or.inr (ite_eq_left_or_right _ _ _)
      · exact div_pos (hh t ht) (by norm_num)
  · obtain ⟨lp, hlp, hpin⟩ := List.mem_flatten.mp hw
    obtain ⟨iw, _, rfl⟩ := List.mem_map.mp hlp
    have h := mem_woodPlacements_uri_scale proj (U iw.1) iw.2 (fun n => hU iw.1 n) p hpin
    exact ⟨Or.inr h.1, h.2⟩

/-- C2 counterexample: the OSM height tag `"0"` parses successfully to 0,
and the resulting individual-tree placement has scale 0/5 = 0, so the
"scale is always > 0" invariant fails on this run. -/
theorem claim_C2_counterexample :
    parseFloat "0" = some 0 ∧
    ¬ ∀ p ∈ generateGazeboModels projOrigin zeroStream (extractFeatures 1 docTreeHeightZero),
        0 < p.scale := by
  constructor
  · rw [show parseFloat "0" = some (1 * ((digitsVal ['0'] : ℕ) : ℚ)) from rfl,
      show digitsVal ['0'] = 0 from rfl]
    norm_num
  · intro hall
    have hgen : generateGazeboModels projOrigin zeroStream (extractFeatures 1 docTreeHeightZero)
        = [⟨TREE_MODEL_DECIDUOUS, 0, 0, 1 * ((digitsVal ['0'] : ℕ) : ℚ) / 5⟩] := rfl
    have hmem : (⟨TREE_MODEL_DECIDUOUS, 0, 0, 1 * ((digitsVal ['0'] : ℕ) : ℚ) / 5⟩ : Placement ℚ)
        ∈ generateGazeboModels projOrigin zeroStream (extractFeatures 1 docTreeHeightZero) := by
      rw [hgen]
      exact List.mem_singleton_self _
    have h := hall _ hmem
    rw [show digitsVal ['0'] = 0 from rfl] at h
    norm_num at h

/-- Witness for C2 (amended) at a one-bench run. -/
theorem claim_C2_witness :
    ((⟨BENCH_MODEL, 0, 0, 1⟩ : Placement ℚ).modelUri = BENCH_MODEL ∨
      (⟨BENCH_MODEL, 0, 0, 1⟩ : Placement ℚ).modelUri = TREE_MODEL_DECIDUOUS ∨
      (⟨BENCH_MODEL, 0, 0, 1⟩ : Placement ℚ).modelUri = TREE_MODEL_CONIFEROUS) ∧
    (0 : ℚ) < (⟨BENCH_MODEL, 0, 0, 1⟩ : Placement ℚ).scale :=
  claim_C2_amended projOrigin zeroStream ⟨[⟨1, 2⟩], [], []⟩ (fun _ _ => le_refl 0)
    (by simp) ⟨BENCH_MODEL, 0, 0, 1⟩
    (by rw [show generateGazeboModels projOrigin zeroStream ⟨[⟨1, 2⟩], [], []⟩
          = [⟨BENCH_MODEL, 0, 0, 1⟩] from rfl]
        exact List.mem_singleton_self _)

/-- C9 (amended): `_latlon_to_xy` catches every internal failure and
returns (0, 0); with `math` unbound (library import, `mathBound = false`)
every conversion yields (0, 0), so every bench, individual-tree and
small-wood placement sits at the origin.  (Large-wood proxy trees are
offset from the projected centroid by grid offsets and jitter, so they are
scattered around — not at — the origin; see the counterexample.) -/
theorem claim_C9_amended {K : Type} [LinearOrderedField K] [FloorRing K]
    (cosF : K → K) (scale : K) (firstNode : Option (K × K)) (feats : Features K)
    (u : ℕ → K) :
    (∀ lat lon, latlon_to_xy cosF false scale firstNode lat lon = (0, 0)) ∧
    (∀ p ∈ benchPlacements (latlon_to_xy cosF false scale firstNode) feats.benches,
        p.x = 0 ∧ p.y = 0) ∧
    (∀ p ∈ treePlacements (latlon_to_xy cosF false scale firstNode) feats.trees,
        p.x = 0 ∧ p.y = 0) ∧
    (∀ w : Wood K, w.area ≤ 5000 →
      ∀ p ∈ woodPlacements (latlon_to_xy cosF false scale firstNode) u w,
        p.x = 0 ∧ p.y = 0) := by
  refine ⟨fun lat lon => rfl, ?_, ?_, ?_⟩
  · intro p hp
    obtain ⟨b, _, rfl⟩ := List.mem_map.mp hp
    exact ⟨rfl, rfl⟩
  · intro p hp
    obtain ⟨t, _, rfl⟩ := List.mem_map.mp hp
    exact ⟨rfl, rfl⟩
  · intro w hw p hp
    unfold woodPlacements at hp
    rw [if_neg (not_lt.mpr hw)] at hp
    simp only [List.mem_singleton] at hp
    subst hp
    exact ⟨rfl, rfl⟩

/-- C9 counterexample: in library mode every conversion returns (0, 0),
yet a large wood's proxy trees are not all at the origin — the first
placement of the 10000 m² wood sits at (-25, -25) under all-zero unit
samples. -/
theorem claim_C9_counterexample :
    ¬ ∀ p ∈ generateGazeboModels (latlon_to_xy (fun _ => (1 : ℚ)) false 1 none)
        zeroStream featsLargeWood, p.x = 0 ∧ p.y = 0 := by
  intro hall
  have hgen : generateGazeboModels (latlon_to_xy (fun _ => (1 : ℚ)) false 1 none)
      zeroStream featsLargeWood
      = woodPlacements (latlon_to_xy (fun _ => (1 : ℚ)) false 1 none) (zeroStream 0) wLarge
          ++ [] := rfl
  rw [List.append_nil] at hgen
  have hmt : (min 20 (pyInt (wLarge.area / 500))).toNat = 20 := by
    norm_num [pyInt, wLarge]
    rfl
  have hsq : Nat.sqrt 20 = 4 := (Nat.eq_sqrt.mpr (by norm_num)).symm
  have harea : (5000 : ℚ) < wLarge.area := by norm_num [wLarge]
  have hmem : (⟨TREE_MODEL_DECIDUOUS, -25, -25, 4 / 5⟩ : Placement ℚ)
      ∈ woodPlacements (latlon_to_xy (fun _ => (1 : ℚ)) false 1 none) (zeroStream 0) wLarge := by
    simp only [woodPlacements]
    rw [if_pos harea]
    simp only [hmt, hsq]
    apply List.mem_map.mpr
    refine ⟨0, List.mem_range.mpr (by norm_num), ?_⟩
    simp only [latlon_to_xy, uniform, zeroStream, wLarge]
    norm_num
  have h := hall _ (hgen ▸ hmem)
  norm_num at h

/-- Witness for C9 (amended): a concrete conversion in library mode and a
concrete bench placement at the origin. -/
theorem claim_C9_witness :
    latlon_to_xy (fun _ => (1 : ℚ)) false 1 none 3 4 = (0, 0) ∧
    ((⟨BENCH_MODEL, 0, 0, 1⟩ : Placement ℚ).x = 0 ∧
      (⟨BENCH_MODEL, 0, 0, 1⟩ : Placement ℚ).y = 0) :=
  ⟨(claim_C9_amended (fun _ => (1 : ℚ)) 1 none ⟨[⟨3, 4⟩], [], []⟩ zeroUnit).1 3 4,
   (claim_C9_amended (fun _ => (1 : ℚ)) 1 none ⟨[⟨3, 4⟩], [], []⟩ zeroUnit).2.1
     ⟨BENCH_MODEL, 0, 0, 1⟩
     (by rw [show benchPlacements (latlon_to_xy (fun _ => (1 : ℚ)) false 1 none) [⟨3, 4⟩]
           = [⟨BENCH_MODEL, 0, 0, 1⟩] from rfl]
         exact List.mem_singleton_self _)⟩

/-- Shoelace of a triangle, unfolded. -/
theorem shoelace_triple {K : Type} [LinearOrderedField K] (p q r : K × K) :
    shoelace [p, q, r] = cross p q + cross q r + cross r p := by
  simp [shoelace, vtx, Finset.sum_range_succ]

/-- C1 (amended): every wood retained by extraction has at least 3 resolved
vertices and its `area_m2` equals `_calculate_polygon_area` of its vertex
list — i.e. `|shoelace|/2` of the vertices flattened with
`x = lon·R·0.0174533·scale`, `y = lat·R·0.0174533·scale` (absolute
coordinates, no reference-point anchoring and no `cos(lat)` factor), not
the §4.2 Geographic Projector flattening the spec prescribes. -/
theorem claim_C1_amended (scale : ℚ) (doc : OsmDoc) :
    ∀ w ∈ (extractFeatures scale doc).woods,
      3 ≤ w.nodes.length ∧ w.area = polygonArea scale w.nodes := by
  intro w hw
  simp only [extractFeatures] at hw
  obtain ⟨way, hway, hsome⟩ := List.mem_filterMap.mp hw
  by_cases h : 2 < (resolveNodes doc way).length
  · rw [if_pos h] at hsome
    obtain rfl := Option.some.inj hsome
    refine ⟨?_, rfl⟩
    show 3 ≤ (resolveNodes doc way).length
    omega
  · rw [if_neg h] at hsome
    exact absurd hsome (by simp)

/-- C1 counterexample: for the collinear wood of `docCollinear` the code's
`area_m2` is 0, while the area obtained by flattening the same vertices
with the §4.2 Geographic Projector (anchored at the ReferencePoint (0,0))
is strictly positive — the per-vertex `cos(lat)` factor of the projector
bends the collinear points apart, so the claimed equality fails. -/
theorem claim_C1_counterexample :
    (extractFeatures 1 docCollinear).woods
        = [⟨[(0, 0), (1, 1), (2, 2)], WoodType.mixed,
            polygonArea 1 [(0, 0), (1, 1), (2, 2)]⟩] ∧
    refPointOf docCollinear = some (0, 0) ∧
    ((polygonArea 1 [((0 : ℚ), 0), (1, 1), (2, 2)] : ℚ) : ℝ)
      ≠ specWoodArea 1 (0, 0) [((0 : ℝ), 0), (1, 1), (2, 2)] := by
  refine ⟨rfl, rfl, ?_⟩
  have hcode : polygonArea 1 [((0 : ℚ), 0), (1, 1), (2, 2)] = 0 := by
    unfold polygonArea
    rw [if_neg (by norm_num)]
    rw [List.map_cons, List.map_cons, List.map_cons, List.map_nil, shoelace_triple]
    simp only [flattenCoord, cross]
    norm_num
  rw [hcode]
  have hS : shoelace ([((0 : ℝ), 0), (1, 1), (2, 2)].map (specProject 1 (0, 0)))
      = 2 * (6371000 * (Real.pi / 180)) ^ 2 *
          (Real.cos ((1 : ℝ) * (Real.pi / 180)) - Real.cos ((2 : ℝ) * (Real.pi / 180))) := by
    rw [List.map_cons, List.map_cons, List.map_cons, List.map_nil, shoelace_triple]
    simp only [specProject, cross]
    ring_nf
  have hpi := Real.pi_pos
  have hcos : Real.cos ((2 : ℝ) * (Real.pi / 180)) < Real.cos ((1 : ℝ) * (Real.pi / 180)) := by
    apply Real.cos_lt_cos_of_nonneg_of_le_pi
    · positivity
    · linarith
    · linarith
  have hSpos : 0 < shoelace ([((0 : ℝ), 0), (1, 1), (2, 2)].map (specProject 1 (0, 0))) := by
    rw [hS]
    have h1 : (0 : ℝ) < 2 * (6371000 * (Real.pi / 180)) ^ 2 := by positivity
    have h2 : (0 : ℝ) < Real.cos ((1 : ℝ) * (Real.pi / 180)) -
        Real.cos ((2 : ℝ) * (Real.pi / 180)) := sub_pos.mpr hcos
    exact mul_pos h1 h2
  have hspec : 0 < specWoodArea 1 (0, 0) [((0 : ℝ), 0), (1, 1), (2, 2)] := by
    unfold specWoodArea
    rw [abs_of_pos hSpos]
    exact div_pos hSpos (by norm_num)
  push_cast
  exact ne_of_lt hspec

/-- Witness for C1 (amended) at the wood extracted from `docCollinear`. -/
theorem claim_C1_witness :
    3 ≤ (⟨[((0 : ℚ), 0), (1, 1), (2, 2)], WoodType.mixed,
          polygonArea 1 [((0 : ℚ), 0), (1, 1), (2, 2)]⟩ : Wood ℚ).nodes.length ∧
    (⟨[((0 : ℚ), 0), (1, 1), (2, 2)], WoodType.mixed,
        polygonArea 1 [((0 : ℚ), 0), (1, 1), (2, 2)]⟩ : Wood ℚ).area
      = polygonArea 1 (⟨[((0 : ℚ), 0), (1, 1), (2, 2)], WoodType.mixed,
          polygonArea 1 [((0 : ℚ), 0), (1, 1), (2, 2)]⟩ : Wood ℚ).nodes :=
  claim_C1_amended 1 docCollinear _
    (by rw [show (extractFeatures 1 docCollinear).woods
          = [⟨[((0 : ℚ), 0), (1, 1), (2, 2)], WoodType.mixed,
              polygonArea 1 [((0 : ℚ), 0), (1, 1), (2, 2)]⟩] from rfl]
        exact List.mem_singleton_self _)

/-- C10: a node tagged both `amenity=bench` and `natural=tree` is emitted
as a bench FeaturePoint and a tree FeaturePoint at the same coordinates,
and contributes both a bench placement and a tree placement (at the same
projected position) to the generated output. -/
theorem claim_C10_dual_tagged_node (doc : OsmDoc) (scale : ℚ) (n : OsmNode)
    (proj : ℚ → ℚ → ℚ × ℚ) (U : ℕ → ℕ → ℚ)
    (hn : n ∈ doc.nodes) (hb : nodeHasBench n = true) (ht : nodeHasTree n = true) :
    (⟨n.lat, n.lon⟩ : BenchPt ℚ) ∈ (extractFeatures scale doc).benches ∧
    (⟨n.lat, n.lon, nodeTreeSpecies n, nodeTreeHeight n⟩ : TreePt ℚ)
      ∈ (extractFeatures scale doc).trees ∧
    (∃ p ∈ generateGazeboModels proj U (extractFeatures scale doc),
        p.modelUri = BENCH_MODEL ∧
          p.x = (proj n.lat n.lon).1 ∧ p.y = (proj n.lat n.lon).2) ∧
    (∃ p ∈ generateGazeboModels proj U (extractFeatures scale doc),
        (p.modelUri = TREE_MODEL_DECIDUOUS ∨ p.modelUri = TREE_MODEL_CONIFEROUS) ∧
          p.x = (proj n.lat n.lon).1 ∧ p.y = (proj n.lat n.lon).2) := by
  have hbm : (⟨n.lat, n.lon⟩ : BenchPt ℚ) ∈ (extractFeatures scale doc).benches :=
    List.mem_map.mpr ⟨n, List.mem_filter.mpr ⟨hn, hb⟩, rfl⟩
  have htm : (⟨n.lat, n.lon, nodeTreeSpecies n, nodeTreeHeight n⟩ : TreePt ℚ)
      ∈ (extractFeatures scale doc).trees :=
    List.mem_map.mpr ⟨n, List.mem_filter.mpr ⟨hn, ht⟩, rfl⟩
  refine ⟨hbm, htm, ?_, ?_⟩
  · refine ⟨⟨BENCH_MODEL, (proj n.lat n.lon).1, (proj n.lat n.lon).2, 1⟩, ?_, rfl, rfl, rfl⟩
    unfold generateGazeboModels
    exact List.mem_append_left _
      (List.mem_append_left _ (List.mem_map.mpr ⟨⟨n.lat, n.lon⟩, hbm, rfl⟩))
  · refine ⟨⟨if nodeTreeSpecies n = Species.deciduous then TREE_MODEL_DECIDUOUS
        else TREE_MODEL_CONIFEROUS,
      (proj n.lat n.lon).1, (proj n.lat n.lon).2, nodeTreeHeight n / 5⟩,
      ?_, ite_eq_left_or_right _ _ _, rfl, rfl⟩
    unfold generateGazeboModels
    exact List.mem_append_left _
      (List.mem_append_right _ (List.mem_map.mpr
        ⟨⟨n.lat, n.lon, nodeTreeSpecies n, nodeTreeHeight n⟩, htm, rfl⟩))

/-- Witness for C10 at a document with one dual-tagged node. -/
theorem claim_C10_witness :
    (⟨7, 8⟩ : BenchPt ℚ) ∈ (extractFeatures 1 docDualNode).benches ∧
    (⟨7, 8, nodeTreeSpecies ⟨"1", 7, 8, [⟨"amenity", "bench"⟩, ⟨"natural", "tree"⟩]⟩,
        nodeTreeHeight ⟨"1", 7, 8, [⟨"amenity", "bench"⟩, ⟨"natural", "tree"⟩]⟩⟩ : TreePt ℚ)
      ∈ (extractFeatures 1 docDualNode).trees ∧
    (∃ p ∈ generateGazeboModels projOrigin zeroStream (extractFeatures 1 docDualNode),
        p.modelUri = BENCH_MODEL ∧
          p.x = (projOrigin 7 8).1 ∧ p.y = (projOrigin 7 8).2) ∧
    (∃ p ∈ generateGazeboModels projOrigin zeroStream (extractFeatures 1 docDualNode),
        (p.modelUri = TREE_MODEL_DECIDUOUS ∨ p.modelUri = TREE_MODEL_CONIFEROUS) ∧
          p.x = (projOrigin 7 8).1 ∧ p.y = (projOrigin 7 8).2) :=
  claim_C10_dual_tagged_node docDualNode 1
    ⟨"1", 7, 8, [⟨"amenity", "bench"⟩, ⟨"natural", "tree"⟩]⟩ projOrigin zeroStream
    (List.mem_singleton_self _) rfl rfl
